import Mathlib

/-!
Verification of the Meraki connection layer of this repository:
the httpapi plugin `lib/ansible/plugins/httpapi/meraki.py` (rate limiting,
retry on HTTP 429, response handling) and the response path of `main` in
`lib/ansible/modules/network/meraki/meraki_rest.py`.

Python runtime behaviour is embedded shallowly: wall-clock instants and
durations are rationals (seconds), fallible evaluation returns `Except PyErr`,
and the dynamic errors the source can raise (TypeError, NameError,
AttributeError, IndexError) are explicit values.  The `time` instant is
sampled once per invocation of a method.
-/

deriving instance DecidableEq for Except

namespace Meraki

/-- Python runtime errors that the embedded code can raise. -/
inductive PyErr where
  | typeError (msg : String)
  | nameError (name : String)
  | attributeError (modName attrName : String)
  | indexError
deriving DecidableEq

/-- Python values moved around by the embedded code: ints, floats,
`datetime.timedelta`, `datetime.datetime` (both measured in seconds as
rationals) and strings. -/
inductive PyVal where
  | int (n : ℤ)
  | float (q : ℚ)
  | timedelta (seconds : ℚ)
  | datetime (t : ℚ)
  | str (s : String)
deriving DecidableEq

/-- Python binary subtraction `a - b` on the value kinds above, with exactly
the operand combinations the Python runtime defines for them; any other
combination (in particular `int - timedelta`) raises TypeError. -/
def pySub : PyVal → PyVal → Except PyErr PyVal
  | PyVal.int m, PyVal.int n => Except.ok (PyVal.int (m - n))
  | PyVal.int m, PyVal.float q => Except.ok (PyVal.float ((m : ℚ) - q))
  | PyVal.float q, PyVal.int n => Except.ok (PyVal.float (q - (n : ℚ)))
  | PyVal.float q, PyVal.float r => Except.ok (PyVal.float (q - r))
  | PyVal.datetime t, PyVal.datetime s => Except.ok (PyVal.timedelta (t - s))
  | PyVal.datetime t, PyVal.timedelta d => Except.ok (PyVal.datetime (t - d))
  | PyVal.timedelta d, PyVal.timedelta e => Except.ok (PyVal.timedelta (d - e))
  | _, _ => Except.error (PyErr.typeError "unsupported operand type for -")

/-- Constant from meraki.py line 57. -/
def RATE_LIMIT_MAX_CONNECTIONS : Nat := 5

/-- Constant from meraki.py line 58. -/
def RATE_LIMIT_CODE : ℤ := 429

/-- The `while` loop of `_rate_limit_monitor` (meraki.py lines 71-74):
`delta = utcnow() - tracker[0]` followed by
`while delta.total_seconds() > 1.0: del tracker[0]; delta = utcnow() - tracker[0]`.
Reading index 0 of an empty list raises IndexError. -/
def pruneLoop (now : ℚ) : List ℚ → Except PyErr (List ℚ)
  | [] => Except.error PyErr.indexError
  | t :: rest => if 1 < now - t then pruneLoop now rest else Except.ok (t :: rest)

/-- Body of `_rate_limit_monitor` (meraki.py lines 69-76), granted a bound
receiver carrying `self.rate_limit_tracker`: append the current time, prune
old entries from the front, and when the pruned window size equals
`RATE_LIMIT_MAX_CONNECTIONS` evaluate `time.sleep(1 - (utcnow() - tracker[0]))`.
The sleep argument subtracts a `datetime.timedelta` from the int `1`, which
is derived below to raise TypeError via `pySub`. -/
def rate_limit_monitor (now : ℚ) (tracker : List ℚ) : Except PyErr (List ℚ) :=
  match pruneLoop now (tracker ++ [now]) with
  | Except.error e => Except.error e
  | Except.ok tr =>
    if tr.length = RATE_LIMIT_MAX_CONNECTIONS then
      match tr with
      | [] => Except.error PyErr.indexError
      | oldest :: _ =>
        match pySub (PyVal.datetime now) (PyVal.datetime oldest) with
        | Except.error e => Except.error e
        | Except.ok age =>
          match pySub (PyVal.int 1) age with
          | Except.error e => Except.error e
          | Except.ok _duration => Except.ok tr
    else Except.ok tr

/-- Parameter list of `def _rate_limit_monitor():` (meraki.py line 69): the
method is declared with no parameters, not even `self`. -/
def rate_limit_monitor_params : List String := []

/-- Module-level names bound in meraki.py (its imports and top-level
assignments), plus the local names of `send_request`.  Python builtins are
omitted; neither `method` nor `HTTPError` is a builtin. -/
def send_request_scope : List String :=
  ["self", "path", "data", "message_kwargs",
   "DOCUMENTATION", "__metaclass__", "time", "datetime", "uniform",
   "ConnectionError", "HttpApiBase", "BASE_HEADERS",
   "RATE_LIMIT_MAX_CONNECTIONS", "RATE_LIMIT_CODE", "URL_PREFIX", "HttpApi"]

/-- Result of one `send_request` call: the returned or raised value, and the
list of `(path, data)` argument pairs actually passed to `connection.send`. -/
structure SendOutcome where
  result : Except PyErr (PyVal × PyVal)
  dispatched : List (String × PyVal)
deriving DecidableEq

/-- `send_request` (meraki.py lines 78-83).  The first statement is the bound
call `self._rate_limit_monitor()`, which passes `self` as one positional
argument to a function declared with `rate_limit_monitor_params` (zero)
parameters; Python raises TypeError unless the counts agree.  Past that the
body evaluates `connection.send(path, data, method=method, headers=...)`,
whose keyword argument looks up the name `method` in scope and raises
NameError when it is absent. -/
def send_request (now : ℚ) (tracker : List ℚ) (path : String) (data : PyVal) :
    SendOutcome :=
  if rate_limit_monitor_params.length = 1 then
    match rate_limit_monitor now tracker with
    | Except.error e => SendOutcome.mk (Except.error e) []
    | Except.ok _tr =>
      if send_request_scope.contains "method" then
        SendOutcome.mk (Except.ok (PyVal.str "", PyVal.str "")) [(path, data)]
      else
        SendOutcome.mk (Except.error (PyErr.nameError "method")) []
  else
    SendOutcome.mk
      (Except.error (PyErr.typeError
        "_rate_limit_monitor() takes 0 positional arguments but 1 was given"))
      []

/-- Attributes of the Python stdlib `time` module that this file could
reference; the module has no attribute named `uniform` (the source imports
`uniform` from `random` at meraki.py line 51 but never uses that import). -/
def time_module_attrs : List String :=
  ["sleep", "time", "gmtime", "localtime", "monotonic", "perf_counter",
   "strftime", "mktime"]

/-- Result of one `_handle_httperror` call: the returned or raised value
(`some true` retry, `some false` no retry, `none` for the fall-through
return), the retry counter after the call, and the durations slept. -/
structure HandleErrorOutcome where
  result : Except PyErr (Option Bool)
  retry_count : Nat
  sleeps : List ℚ
deriving DecidableEq

/-- `_handle_httperror` (meraki.py lines 85-93).  On a 429 the body first
evaluates `time.sleep(time.uniform(0.5, 5.0))`: the attribute lookup
`time.uniform` raises AttributeError when `uniform` is not an attribute of
the `time` module.  `sample` stands for the value `uniform(0.5, 5.0)` would
produce were the lookup to succeed. -/
def handle_httperror (sample : ℚ) (retry_count : Nat) (code : ℤ) :
    HandleErrorOutcome :=
  if code = RATE_LIMIT_CODE then
    if time_module_attrs.contains "uniform" then
      if retry_count = 10 then
        HandleErrorOutcome.mk (Except.ok (some false)) retry_count [sample]
      else
        HandleErrorOutcome.mk (Except.ok (some true)) (retry_count + 1) [sample]
    else
      HandleErrorOutcome.mk
        (Except.error (PyErr.attributeError "time" "uniform")) retry_count []
  else if code = 404 then
    HandleErrorOutcome.mk (Except.ok (some false)) retry_count []
  else
    HandleErrorOutcome.mk (Except.ok Option.none) retry_count []

/-- `_handle_response` (meraki.py lines 95-96): returns the response content
unchanged; `self.retry_count` is not read or written. -/
def handle_response (retry_count : Nat) (response_content : PyVal) :
    PyVal × Nat :=
  (response_content, retry_count)

/-- Uppercasing as Python `str.upper()` does for ASCII method names, written
over the character list of the string. -/
def pyUpper (s : String) : String := String.mk (s.data.map Char.toUpper)

/-- How `main` of meraki_rest.py terminates: `module.exit_json` with the
`changed` flag, the optional parsed `message`, and the optional `msg`, or
`module.fail_json` with a message string. -/
inductive ModuleExit where
  | exitJson (changed : Bool) (message : Option PyVal) (msg : Option PyVal)
  | failJson (msg : String)
deriving DecidableEq

/-- Response path of `main` in meraki_rest.py (lines 176-193), as a function
of the method parameter, `info[status]`, `info[body]`, the bytes read from
the response, and the stdlib `json.loads` (passed as a parameter, the json
module being external to this repository; a parse failure is its exception):
a POST with status 200 exits with `msg` set to the status; a status of 300 or
more fails with the formatted status and body; a 2xx parses the body as JSON
into `message` with `changed` set, failing with the fixed message when
parsing raises; otherwise the seeded result is returned unchanged. -/
def main_response (loads : String → Except Unit PyVal)
    (method : String) (status : ℤ) (body : String) (respRead : String) :
    ModuleExit :=
  if pyUpper method = "POST" ∧ status = 200 then
    ModuleExit.exitJson false Option.none (some (PyVal.int status))
  else if 300 ≤ status then
    ModuleExit.failJson (toString status ++ ": " ++ body ++ " ")
  else if 200 ≤ status ∧ status ≤ 299 then
    match loads respRead with
    | Except.ok parsed => ModuleExit.exitJson true (some parsed) Option.none
    | Except.error _ =>
      ModuleExit.failJson "Meraki dashboard didn\x27t return JSON compatible data"
  else
    ModuleExit.exitJson false Option.none Option.none

/-! Helper lemmas about the prune loop. -/

/-- The prune loop run on a window that ends with the just-appended instant
`now` succeeds and keeps that instant: the loop never empties the list. -/
theorem pruneLoop_append_ok (now : ℚ) (l : List ℚ) :
    ∃ r, pruneLoop now (l ++ [now]) = Except.ok r ∧ r ≠ [] := by
  induction l with
  | nil =>
    refine ⟨[now], ?_, by simp⟩
    simp [pruneLoop]
  | cons t l ih =>
    by_cases h : 1 < now - t
    · simpa [pruneLoop, h] using ih
    · exact ⟨t :: (l ++ [now]), by simp [pruneLoop, h], by simp⟩

/-- On a sorted window the front-prune loop removes exactly the entries whose
age exceeds one second: it agrees with filtering by age. -/
theorem pruneLoop_sorted_eq_filter (now : ℚ) (l : List ℚ)
    (hs : List.Sorted (· ≤ ·) l) :
    pruneLoop now (l ++ [now]) =
      Except.ok ((l ++ [now]).filter (fun x => decide (now - x ≤ 1))) := by
  induction l with
  | nil => simp [pruneLoop]
  | cons t l ih =>
    rcases List.sorted_cons.mp hs with ⟨ht, hl⟩
    by_cases h : 1 < now - t
    · have hd : (decide (now - t ≤ 1)) = false := decide_eq_false (not_le.mpr h)
      rw [List.cons_append, List.filter_cons_of_neg (by rw [hd]; exact Bool.false_ne_true)]
      simp only [pruneLoop, if_pos h]
      exact ih hl
    · have hpred : now - t ≤ 1 := not_lt.mp h
      have hall : ∀ x ∈ (l ++ [now]), decide (now - x ≤ 1) = true := by
        intro x hx
        rcases List.mem_append.mp hx with hx | hx
        · exact decide_eq_true_eq.mpr (le_trans (by linarith [ht x hx]) hpred)
        · have : x = now := by simpa using hx
          subst this
          exact decide_eq_true_eq.mpr (by linarith)
      simp only [List.cons_append, pruneLoop, if_neg h, List.filter_cons]
      rw [List.filter_eq_self.mpr hall]
      simp [hpred]

/-! Theorems settling the claims. -/

/-- C5: granted a bound receiver, every run of the `_rate_limit_monitor` body
first records the current instant into the window and then prunes from the
front exactly the entries whose age exceeds one second, so that immediately
after the check the window holds the recorded instant and no entry older
than one second relative to it.  The sortedness hypothesis reflects that the
entries are successive samples of a monotone clock. -/
theorem rate_limit_monitor_records_then_prunes (now : ℚ) (tracker : List ℚ)
    (hs : List.Sorted (· ≤ ·) tracker) :
    pruneLoop now (tracker ++ [now]) =
      Except.ok ((tracker ++ [now]).filter (fun x => decide (now - x ≤ 1)))
    ∧ now ∈ (tracker ++ [now]).filter (fun x => decide (now - x ≤ 1))
    ∧ ∀ x ∈ (tracker ++ [now]).filter (fun x => decide (now - x ≤ 1)),
        now - x ≤ 1 := by
  refine ⟨pruneLoop_sorted_eq_filter now tracker hs, ?_, ?_⟩
  · exact List.mem_filter.mpr ⟨by simp, by simp⟩
  · intro x hx
    exact of_decide_eq_true (List.mem_filter.mp hx).2

/-- Witness for C5 at the concrete window `[0, 1]` and instant `2`. -/
theorem rate_limit_monitor_records_then_prunes_witness :
    pruneLoop 2 ([0, 1] ++ [2]) =
      Except.ok (([0, 1] ++ [(2 : ℚ)]).filter (fun x => decide ((2 : ℚ) - x ≤ 1)))
    ∧ (2 : ℚ) ∈ ([0, 1] ++ [(2 : ℚ)]).filter (fun x => decide ((2 : ℚ) - x ≤ 1))
    ∧ ∀ x ∈ ([0, 1] ++ [(2 : ℚ)]).filter (fun x => decide ((2 : ℚ) - x ≤ 1)),
        (2 : ℚ) - x ≤ 1 :=
  rate_limit_monitor_records_then_prunes 2 [0, 1] (by norm_num [List.sorted_cons])

/-- C6: in the `_rate_limit_monitor` body every read of index 0 happens on a
non-empty window: the prune loop run right after the append never empties the
list (the just-appended instant is never pruned), and the whole body never
raises IndexError on any input. -/
theorem rate_limit_monitor_no_index_error (now : ℚ) (tracker : List ℚ) :
    (∃ r, pruneLoop now (tracker ++ [now]) = Except.ok r ∧ r ≠ [])
    ∧ rate_limit_monitor now tracker ≠ Except.error PyErr.indexError := by
  obtain ⟨r, hr, hne⟩ := pruneLoop_append_ok now tracker
  refine ⟨⟨r, hr, hne⟩, ?_⟩
  cases r with
  | nil => exact absurd rfl hne
  | cons o rest =>
    simp only [rate_limit_monitor, hr]
    by_cases hlen : rest.length + 1 = RATE_LIMIT_MAX_CONNECTIONS
    · simp [hlen, pySub]
    · simp [hlen]

/-- C4: the claim says a full window makes the monitor sleep for one second
minus the age of the oldest entry; the source instead evaluates
`time.sleep(1 - (datetime.datetime.utcnow() - self.rate_limit_tracker[0]))`,
subtracting a `datetime.timedelta` from the int `1`, which raises TypeError.
At the window `[0, 0, 0, 0]` with current instant `1` the pruned window has
size 5 and the body raises instead of sleeping. -/
theorem rate_limit_monitor_full_window_raises_type_error :
    rate_limit_monitor 1 [0, 0, 0, 0] =
      Except.error (PyErr.typeError "unsupported operand type for -") := by
  norm_num [rate_limit_monitor, pruneLoop, pySub, RATE_LIMIT_MAX_CONNECTIONS]

/-- C1: the claim says dispatched requests never exceed 5 per rolling second;
in the source no request is ever dispatched at all, because every
`send_request` call raises TypeError at `self._rate_limit_monitor()` before
reaching `connection.send` (and would hit an unbound `method` even past it),
so the throttle never operates. -/
theorem send_request_dispatches_nothing (now : ℚ) (tracker : List ℚ)
    (path : String) (data : PyVal) :
    (send_request now tracker path data).dispatched = []
    ∧ ∃ e, (send_request now tracker path data).result = Except.error e :=
  ⟨rfl, ⟨_, rfl⟩⟩

/-- C10: every call of `send_request` raises before any HTTP request is
dispatched: `_rate_limit_monitor` is declared with zero parameters yet the
bound call passes one, a TypeError, and the names `method` and `HTTPError`
referenced further down the body are bound nowhere in scope. -/
theorem send_request_always_raises (now : ℚ) (tracker : List ℚ)
    (path : String) (data : PyVal) :
    (send_request now tracker path data).result =
      Except.error (PyErr.typeError
        "_rate_limit_monitor() takes 0 positional arguments but 1 was given")
    ∧ (send_request now tracker path data).dispatched = []
    ∧ rate_limit_monitor_params = []
    ∧ "method" ∉ send_request_scope
    ∧ "HTTPError" ∉ send_request_scope :=
  ⟨rfl, rfl, rfl, by decide, by decide⟩

/-- C2: the claim says a 429 yields a retry decision of True exactly while
the counter is below 10 and exhaustion after ten consecutive 429 responses;
the source instead evaluates `time.uniform(0.5, 5.0)` on every 429 — the
`time` module has no attribute `uniform` — so at every counter value the
handler raises AttributeError and never returns a retry decision at all. -/
theorem handle_httperror_429_always_raises (sample : ℚ) (retry_count : Nat) :
    handle_httperror sample retry_count 429 =
      HandleErrorOutcome.mk
        (Except.error (PyErr.attributeError "time" "uniform")) retry_count [] :=
  rfl

/-- C3: the claim says a 429 sleeps a uniform sample of [0.5, 5.0] and
increments the counter exactly once; the source raises AttributeError at the
`time.uniform` lookup, so at counter 3 no sleep happens and the counter stays
at 3. -/
theorem handle_httperror_429_no_sleep_no_increment :
    handle_httperror (7 / 2) 3 429 =
      HandleErrorOutcome.mk
        (Except.error (PyErr.attributeError "time" "uniform")) 3 []
    ∧ (handle_httperror (7 / 2) 3 429).retry_count = 3
    ∧ (handle_httperror (7 / 2) 3 429).sleeps = [] :=
  ⟨rfl, rfl, rfl⟩

/-- C7: a 404 passed to `_handle_httperror` returns False (no retry)
immediately, with no sleep and the retry counter unchanged. -/
theorem handle_httperror_404_no_retry (sample : ℚ) (retry_count : Nat) :
    handle_httperror sample retry_count 404 =
      HandleErrorOutcome.mk (Except.ok (some false)) retry_count [] :=
  rfl

/-- Counterexample to C8: `_handle_response` hands the content back with the
retry counter untouched — at counter 3 it stays 3, not 0 — and a POST whose
status is 200 exits with `msg` set to the status instead of the parsed body,
even though its body parses as JSON. -/
theorem response_handler_counter_not_reset :
    handle_response 3 (PyVal.str "[]") = (PyVal.str "[]", 3)
    ∧ (handle_response 3 (PyVal.str "[]")).2 ≠ 0
    ∧ main_response (fun _ => Except.ok (PyVal.int 7)) "post" 200 "" "7" =
        ModuleExit.exitJson false Option.none (some (PyVal.int 200)) :=
  ⟨rfl, by decide, rfl⟩

/-- C8 as amended: for a 200 response to a non-POST request whose body is
valid JSON, the meraki_rest module returns the parsed body with `changed`
set; the httpapi response handler returns the content unchanged and leaves
the retry counter at its prior value (nothing resets it to 0). -/
theorem main_response_200_valid_json_returns_parsed
    (loads : String → Except Unit PyVal) (method body respRead : String)
    (j : PyVal) (n : Nat) (v : PyVal)
    (hm : pyUpper method ≠ "POST") (hl : loads respRead = Except.ok j) :
    main_response loads method 200 body respRead =
      ModuleExit.exitJson true (some j) Option.none
    ∧ handle_response n v = (v, n) := by
  refine ⟨?_, rfl⟩
  simp [main_response, hl, hm]

/-- Witness for the amended C8: a GET returning status 200 with body `7`. -/
theorem main_response_200_valid_json_returns_parsed_witness :
    main_response (fun _ => Except.ok (PyVal.int 7)) "get" 200 "" "7" =
      ModuleExit.exitJson true (some (PyVal.int 7)) Option.none
    ∧ handle_response 2 (PyVal.int 7) = (PyVal.int 7, 2) :=
  main_response_200_valid_json_returns_parsed (fun _ => Except.ok (PyVal.int 7))
    "get" "" "7" (PyVal.int 7) 2 (PyVal.int 7) (by decide) rfl

/-- Counterexample to C9: a POST answered with status 200 and a body that is
not valid JSON exits successfully with `msg` set to the status — the module
never parses the body on that path, so no malformed-response failure is
reported. -/
theorem main_response_post_200_nonjson_succeeds :
    main_response (fun _ => Except.error ()) "post" 200 "" "not json" =
      ModuleExit.exitJson false Option.none (some (PyVal.int 200))
    ∧ main_response (fun _ => Except.error ()) "post" 200 "" "not json" ≠
        ModuleExit.failJson "Meraki dashboard didn\x27t return JSON compatible data" :=
  ⟨rfl, by decide⟩

/-- C9 as amended: for a 200 response to a non-POST request whose body fails
to parse as JSON, the meraki_rest module fails with the fixed
malformed-data message; a POST with status 200 bypasses parsing entirely. -/
theorem main_response_200_invalid_json_fails
    (loads : String → Except Unit PyVal) (method body respRead : String)
    (hm : pyUpper method ≠ "POST") (hl : loads respRead = Except.error ()) :
    main_response loads method 200 body respRead =
      ModuleExit.failJson "Meraki dashboard didn\x27t return JSON compatible data" := by
  simp [main_response, hl, hm]

/-- Witness for the amended C9: a GET returning status 200 with an
unparseable body. -/
theorem main_response_200_invalid_json_fails_witness :
    main_response (fun _ => Except.error ()) "get" 200 "" "oops" =
      ModuleExit.failJson "Meraki dashboard didn\x27t return JSON compatible data" :=
  main_response_200_invalid_json_fails (fun _ => Except.error ()) "get" "" "oops"
    (by decide) rfl

end Meraki
